import Mathlib

/-!
Verification development for the NASCAR 25 stream-overlay widget engines.

The repository contains three event-driven widget engines sharing one
admission/lifetime pattern:
  * alerts  (`assets/js/alerts.js`): bounded Active Set + FIFO Pending Queue,
  * chat    (`assets/js/chat.js`):   bounded Backing List, auto-scroll,
  * ticker  (`assets/js/ticker.js`): cyclic-buffer marquee rendered twice.

This file gives a shallow embedding of those engines.  DOM surfaces are
modelled as explicit list-valued fields of a state record; the opaque DOM
element built for an alert is abstracted to a numeric identity (no claim
ever inspects an alert node's content, only admission/retirement of the
node), while chat and ticker nodes, whose text content claims do inspect,
are modelled structurally.  `setTimeout` continuations are modelled as
explicit operations on traces; a pending-timer pool records which
retirement continuations are outstanding.
-/

namespace Overlay

/-! ### shared.js utilities (`assets/js/shared.js`) -/

/-- One character of `escapeHtml`: the `textContent`/`innerHTML` round trip
escapes the markup-significant characters. -/
def escapeChar (c : Char) : String :=
  if c = '&' then "&amp;"
  else if c = '<' then "&lt;"
  else if c = '>' then "&gt;"
  else String.singleton c

/-- `escapeHtml(text)` from shared.js lines 55-59. -/
def escapeHtml (s : String) : String :=
  String.join (s.toList.map escapeChar)

/-- Digit-grouping core of `formatNumber`: the regex
`\B(?=(\d{3})+(?!\d))` inserts a comma at every interior position that is
followed by a positive multiple of three digits. -/
def commaSeparate : List Char → List Char
  | [] => []
  | c :: cs =>
      if cs.length % 3 = 0 ∧ cs.length ≠ 0 then c :: ',' :: commaSeparate cs
      else c :: commaSeparate cs

/-- `formatNumber(num)` from shared.js lines 80-82, for natural inputs. -/
def formatNumber (n : Nat) : String :=
  String.mk (commaSeparate (Nat.repr n).toList)

/-! ### Ticker engine (`assets/js/ticker.js`) -/

/-- `TICKER_CONFIG.MAX_ITEMS`. -/
def MAX_ITEMS : Nat := 20

/-- `TICKER_CONFIG.SCROLL_SPEED` (base CSS animation duration, seconds). -/
def SCROLL_SPEED : Nat := 30

/-- `TICKER_CONFIG.icons` registry. -/
def tickerIcons : List (String × String) :=
  [("follow", "👤"), ("subscribe", "⭐"), ("donation", "💵"),
   ("cheer", "💎"), ("raid", "🚀"), ("host", "📺")]

/-- Property lookup `TICKER_CONFIG.icons[type]`. -/
def lookupIcon (ty : String) : Option String :=
  (tickerIcons.find? (fun p => p.fst = ty)).map Prod.snd

/-- Ticker item data record (fields and defaults of `createTickerItem`). -/
structure ItemData where
  ty : String := "follow"
  username : String := "Anonymous"
  action : String := "followed"
  detail : String := ""
deriving DecidableEq, Repr

/-- The node `createTickerItem` builds: icon div plus text content; the
detail span is only appended when `detail` is non-empty. -/
structure ItemNode where
  ty : String
  icon : String
  username : String
  action : String
  detail : Option String
deriving DecidableEq, Repr

/-- `createTickerItem(itemData)` from ticker.js lines 56-106.  The icon is
`TICKER_CONFIG.icons[type] || '●'`: JavaScript `||` also rejects an empty
string, hence the explicit emptiness test. -/
def createTickerItem (d : ItemData) : ItemNode :=
  { ty := d.ty
    icon :=
      match lookupIcon d.ty with
      | some s => if s = "" then "●" else s
      | none => "●"
    username := d.username
    action := d.action
    detail := if d.detail = "" then none else some d.detail }

/-- A child of the ticker track: an item node or a separator span. -/
inductive TrackNode where
  | item (n : ItemNode)
  | separator
deriving DecidableEq, Repr

/-- Projection of a track child back to its item node, if it is one. -/
def trackItemNode : TrackNode → Option ItemNode
  | TrackNode.item n => some n
  | TrackNode.separator => none

/-- Ticker engine state: `tickerItems`, whether `tickerTrack` was found,
the track's children, the number of `.ticker-empty` placeholder nodes in
the track's parent, and the track's `animationDuration` style (seconds,
`none` when never set). -/
structure TickerState where
  items : List ItemData
  trackPresent : Bool
  track : List TrackNode
  emptyMsgs : Nat
  animationDuration : Option Nat
deriving DecidableEq, Repr

/-- `updateScrollSpeed()` from ticker.js lines 198-204: reads the global
`tickerItems` (the state's items), not the rendered list. -/
def updateScrollSpeed (s : TickerState) : TickerState :=
  if s.trackPresent then
    { s with animationDuration := some (max SCROLL_SPEED (s.items.length * 2)) }
  else s

/-- One pass of the render loop: each item followed by a separator. -/
def renderedRun (items : List ItemData) : List TrackNode :=
  items.flatMap (fun d => [TrackNode.item (createTickerItem d), TrackNode.separator])

/-- `renderTicker(items)` from ticker.js lines 112-164: clear the track;
when the list is empty append a `.ticker-empty` placeholder to the track's
parent and return; otherwise remove one existing placeholder (the
`querySelector` finds at most one), render the item run twice, and update
the scroll speed. -/
def renderTicker (items : List ItemData) (s : TickerState) : TickerState :=
  if s.trackPresent = false then s
  else
    let s1 : TickerState := { s with track := [] }
    if items.length = 0 then
      { s1 with emptyMsgs := s1.emptyMsgs + 1 }
    else
      updateScrollSpeed
        { s1 with emptyMsgs := s1.emptyMsgs - 1
                  track := renderedRun items ++ renderedRun items }

/-- `addTickerItem(itemData)` from ticker.js lines 170-184: unshift, then
truncate to `MAX_ITEMS` when over, then re-render. -/
def addTickerItem (d : ItemData) (s : TickerState) : TickerState :=
  renderTicker
    (if MAX_ITEMS < (d :: s.items).length then (d :: s.items).take MAX_ITEMS
     else d :: s.items)
    { s with items :=
        if MAX_ITEMS < (d :: s.items).length then (d :: s.items).take MAX_ITEMS
        else d :: s.items }

/-- `clearTicker()` from ticker.js lines 189-193. -/
def clearTicker (s : TickerState) : TickerState :=
  renderTicker [] { s with items := [] }

/-- A ticker state whose track was found, before any event. -/
def emptyTickerState : TickerState :=
  { items := [], trackPresent := true, track := [], emptyMsgs := 0,
    animationDuration := none }

/-- A ticker state whose track element is missing. -/
def noTrackState : TickerState :=
  { items := [], trackPresent := false, track := [], emptyMsgs := 0,
    animationDuration := none }

/-- Repeatedly feed the default demo record to the ticker. -/
def addFollows : Nat → TickerState → TickerState
  | 0, s => s
  | n + 1, s => addFollows n (addTickerItem {} s)

/-! ### Chat engine (`assets/js/chat.js`) -/

/-- `CHAT_CONFIG.MAX_MESSAGES`. -/
def MAX_MESSAGES : Nat := 50

/-- Chat message record (fields and defaults of `addChatLine`). -/
structure ChatRecord where
  username : String := "Anonymous"
  message : String := ""
  badges : List String := []
  highlighted : Bool := false
  system : Bool := false
  cheer : Bool := false
  bits : Nat := 0
  color : Option String := none
deriving DecidableEq, Repr

/-- The message node `addChatLine` builds (chat.js lines 433-508): its CSS
classes, badge spans, username span with optional color override, and the
processed body text.  The wall-clock timestamp span is outside the
embedding (real time) and carries no information a claim inspects. -/
structure ChatMsg where
  classes : List String
  badges : List String
  username : String
  color : Option String
  content : String
deriving DecidableEq, Repr

/-- Node construction part of `addChatLine` (chat.js lines 433-508): class
flags, badges, username color, HTML-escaped body, and the cheer prefix
which the source guards by `cheer && bits > 0`. -/
def buildChatMsg (d : ChatRecord) : ChatMsg :=
  { classes :=
      ["chat-message"] ++ (if d.highlighted then ["highlighted"] else [])
        ++ (if d.system then ["system"] else [])
        ++ (if d.cheer then ["cheer"] else [])
    badges := d.badges
    username := d.username
    color := d.color
    content :=
      if d.cheer ∧ 0 < d.bits then
        "Cheered " ++ formatNumber d.bits ++ " bits: " ++ escapeHtml d.message
      else escapeHtml d.message }

/-- Chat engine state: `chatMessages`, the container's children, whether
the container was found, the auto-scroll flag, the container's `scrollTop`
and `clientHeight`.  Message heights are taken as one unit each, so the
container's `scrollHeight` is its child count. -/
structure ChatState where
  messages : List ChatMsg
  children : List ChatMsg
  containerPresent : Bool
  autoScroll : Bool
  scrollTop : Nat
  clientHeight : Nat
deriving DecidableEq, Repr

/-- The container's `scrollHeight` (unit message heights). -/
def scrollHeight (s : ChatState) : Nat := s.children.length

/-- The largest value `scrollTop` can take: the DOM clamps assignments to
`scrollHeight - clientHeight` (and to 0 from below, free over `Nat`). -/
def maxScroll (s : ChatState) : Nat := scrollHeight s - s.clientHeight

/-- DOM behaviour: after a content mutation the browser keeps `scrollTop`
within its legal range. -/
def clampScroll (s : ChatState) : ChatState :=
  { s with scrollTop := min s.scrollTop (maxScroll s) }

/-- `scrollToBottom()` from chat.js lines 544-548: the assignment
`scrollTop = scrollHeight` is clamped by the DOM to the maximum offset. -/
def scrollToBottom (s : ChatState) : ChatState :=
  if s.containerPresent then
    { s with scrollTop := min (scrollHeight s) (maxScroll s) }
  else s

/-- Append step of `addChatLine` (chat.js lines 510-512): the node goes to
the container and onto `chatMessages`. -/
def appendMsg (m : ChatMsg) (s : ChatState) : ChatState :=
  { s with children := s.children ++ [m], messages := s.messages ++ [m] }

/-- Eviction step of `addChatLine` (chat.js lines 514-520): when over
`MAX_MESSAGES`, shift the oldest entry and detach its node. -/
def evictOld (s : ChatState) : ChatState :=
  if MAX_MESSAGES < s.messages.length then
    match s.messages with
    | [] => s
    | old :: rest => { s with messages := rest, children := s.children.erase old }
  else s

/-- `addChatLine(messageData)` from chat.js lines 416-526: bail out when
the container is missing, otherwise build the node, append, evict, and
auto-scroll when enabled. -/
def addChatLine (d : ChatRecord) (s : ChatState) : ChatState :=
  if s.containerPresent = false then s
  else
    let s2 := clampScroll (evictOld (appendMsg (buildChatMsg d) s))
    if s2.autoScroll then scrollToBottom s2 else s2

/-- `clearChat()` from chat.js lines 553-558: empty the container when
present (the DOM clamps `scrollTop` to 0), then reset `chatMessages`. -/
def clearChat (s : ChatState) : ChatState :=
  if s.containerPresent then
    { clampScroll { s with children := [] } with messages := [] }
  else { s with messages := [] }

/-- `setAutoScroll(enabled)` from chat.js lines 564-566. -/
def setAutoScroll (b : Bool) (s : ChatState) : ChatState :=
  { s with autoScroll := b }

/-- A chat state whose container was found, before any message. -/
def initChatState : ChatState :=
  { messages := [], children := [], containerPresent := true,
    autoScroll := true, scrollTop := 0, clientHeight := 5 }

/-- A chat state whose container element is missing. -/
def noChatState : ChatState :=
  { messages := [], children := [], containerPresent := false,
    autoScroll := true, scrollTop := 0, clientHeight := 5 }

/-! ### Alert engine (`assets/js/alerts.js`) -/

/-- `ALERT_CONFIG.MAX_ALERTS`. -/
def MAX_ALERTS : Nat := 3

/-- `ALERT_CONFIG.ALERT_LIFETIME` in milliseconds. -/
def ALERT_LIFETIME : Nat := 8000

/-- The keys of the `ALERT_CONFIG.types` registry. -/
def alertTypes : List String :=
  ["follow", "subscribe", "donation", "cheer"]

/-- Alert engine state.  An alert DOM element is abstracted to a numeric
identity: `alertQueue` and `activeAlerts` are the two collections of
alerts.js lines 54-55, `containerChildren` the children of
`alertContainer`, and `pendingTimers` the set of alerts whose
`ALERT_LIFETIME` retirement `setTimeout` has been scheduled but has not
yet fired (no code ever cancels one). -/
structure AlertState where
  alertQueue : List Nat
  activeAlerts : List Nat
  containerPresent : Bool
  containerChildren : List Nat
  pendingTimers : List Nat
deriving DecidableEq, Repr

/-- `displayAlert(alert)` from alerts.js lines 186-202: bail out when the
container is missing, else push onto the Active Set, attach the node, and
schedule retirement. -/
def displayAlert (a : Nat) (s : AlertState) : AlertState :=
  if s.containerPresent = false then s
  else
    { s with activeAlerts := s.activeAlerts ++ [a]
             containerChildren := s.containerChildren ++ [a]
             pendingTimers := s.pendingTimers ++ [a] }

/-- `createAlert(alertData)` from alerts.js lines 74-180: reject unknown
types before any state change; display immediately while the Active Set is
below `MAX_ALERTS`, otherwise append to the Pending Queue.  (The
type-specific node content is abstracted into the identity `a`; no sound is
configured for any type, so `playAlertSound` is never reached.) -/
def createAlert (ty : String) (a : Nat) (s : AlertState) : AlertState :=
  if (alertTypes.contains ty) = false then s
  else if s.activeAlerts.length < MAX_ALERTS then displayAlert a s
  else { s with alertQueue := s.alertQueue ++ [a] }

/-- `removeAlert(alert)` from alerts.js lines 208-228, taken at the point
its inner 600 ms exit timeout fires: detach the node if attached, filter
the alert out of the Active Set, and promote the head of the Pending Queue
when one exists.  (The `exiting` class added at entry lives on a node that
is detached in the same continuation, so it is not observable here.) -/
def removeAlert (a : Nat) (s : AlertState) : AlertState :=
  let s1 : AlertState :=
    { s with containerChildren := s.containerChildren.filter (fun c => c != a)
             activeAlerts := s.activeAlerts.filter (fun c => c != a) }
  match s1.alertQueue with
  | [] => s1
  | q :: qs => displayAlert q { s1 with alertQueue := qs }

/-- `clearAlerts()` from alerts.js lines 233-241: detach every active
node, then reset both collections.  Pending retirement timers are left
untouched (the source has no handle to cancel them). -/
def clearAlerts (s : AlertState) : AlertState :=
  { s with containerChildren :=
             s.containerChildren.filter (fun c => !(s.activeAlerts.contains c))
           activeAlerts := []
           alertQueue := [] }

/-- `initAlerts()` from alerts.js lines 345-355: when the container is
found it is used; when it is not, an error is logged and a fallback
container is created and attached, so the engine always ends initialization
with a container. -/
def initAlerts (found : Bool) (s : AlertState) : AlertState :=
  if found then { s with containerPresent := true }
  else { s with containerPresent := true }

/-- Externally observable alert-engine operations: an event submission, a
scheduled retirement continuation firing, and `clearAlerts`. -/
inductive AlertOp where
  | submit (ty : String) (a : Nat)
  | retire (a : Nat)
  | clear
deriving DecidableEq, Repr

/-- One step of the alert engine.  A retirement continuation can fire only
for an alert whose timer is still outstanding; firing consumes the timer.
`clearAlerts` does not cancel timers, so a retirement may fire for an alert
the clear already removed. -/
def stepAlert (s : AlertState) (op : AlertOp) : AlertState :=
  match op with
  | AlertOp.submit ty a => createAlert ty a s
  | AlertOp.retire a =>
      if s.pendingTimers.contains a then
        removeAlert a { s with pendingTimers := s.pendingTimers.erase a }
      else s
  | AlertOp.clear => clearAlerts s

/-- Run a sequence of alert-engine operations. -/
def runAlerts (ops : List AlertOp) (s : AlertState) : AlertState :=
  ops.foldl stepAlert s

/-- The alert engine's state after initialization found its container. -/
def initAlertState : AlertState :=
  { alertQueue := [], activeAlerts := [], containerPresent := true,
    containerChildren := [], pendingTimers := [] }

/-- An alert state whose container is missing (before initialization). -/
def noContainerAlertState : AlertState :=
  { alertQueue := [], activeAlerts := [], containerPresent := false,
    containerChildren := [], pendingTimers := [] }

/-- Reachability by alert-engine steps in which every retirement
continuation fires while its alert is still in the Active Set (the
discipline §5 of the spec asks of an implementation). -/
inductive ReachAlert : AlertState → AlertState → Prop where
  | refl (s : AlertState) : ReachAlert s s
  | submit (s t : AlertState) (ty : String) (a : Nat) :
      ReachAlert s t → ReachAlert s (createAlert ty a t)
  | retire (s t : AlertState) (a : Nat) :
      ReachAlert s t → a ∈ t.activeAlerts → a ∈ t.pendingTimers →
      ReachAlert s (removeAlert a { t with pendingTimers := t.pendingTimers.erase a })
  | clear (s t : AlertState) :
      ReachAlert s t → ReachAlert s (clearAlerts t)

/-- A default ticker record, as the demo generator would submit. -/
def demoItem : ItemData := {}

/-- A ticker record whose type is outside every registry. -/
def mysteryItem : ItemData := { ty := "mystery" }

/-- A default chat record. -/
def demoChatRecord : ChatRecord := {}

/-- A reachable alert state: one queued alert, a full Active Set whose
nodes are attached, and one stale pending timer (alert 1 was cleared). -/
def staleTimerState : AlertState :=
  { alertQueue := [9], activeAlerts := [4, 5, 6], containerPresent := true,
    containerChildren := [4, 5, 6], pendingTimers := [1] }

/-! ## Helper lemmas -/

theorem renderTicker_items (items : List ItemData) (s : TickerState) :
    (renderTicker items s).items = s.items := by
  unfold renderTicker updateScrollSpeed
  dsimp only
  split
  · rfl
  · split
    · rfl
    · split <;> rfl

theorem renderTicker_noTrack (items : List ItemData) (s : TickerState)
    (ht : s.trackPresent = false) : renderTicker items s = s := by
  unfold renderTicker
  simp [ht]

theorem renderTicker_empty_eq (s : TickerState) (ht : s.trackPresent = true) :
    renderTicker [] s = { s with track := [], emptyMsgs := s.emptyMsgs + 1 } := by
  unfold renderTicker
  simp [ht]

theorem renderTicker_nonempty_eq (items : List ItemData) (s : TickerState)
    (h : items ≠ []) (ht : s.trackPresent = true) :
    renderTicker items s =
      { s with track := renderedRun items ++ renderedRun items
               emptyMsgs := s.emptyMsgs - 1
               animationDuration := some (max SCROLL_SPEED (s.items.length * 2)) } := by
  unfold renderTicker updateScrollSpeed
  simp [ht, h]

theorem newItems_ne_nil (d : ItemData) (l : List ItemData) :
    (if MAX_ITEMS < (d :: l).length then (d :: l).take MAX_ITEMS else d :: l) ≠ [] := by
  split
  · simp [MAX_ITEMS, List.take_succ_cons]
  · simp

theorem addTickerItem_eq (d : ItemData) (s : TickerState) (ht : s.trackPresent = true) :
    addTickerItem d s =
      { s with
        items :=
          (if MAX_ITEMS < (d :: s.items).length then (d :: s.items).take MAX_ITEMS
           else d :: s.items)
        track :=
          renderedRun
              (if MAX_ITEMS < (d :: s.items).length then (d :: s.items).take MAX_ITEMS
               else d :: s.items) ++
            renderedRun
              (if MAX_ITEMS < (d :: s.items).length then (d :: s.items).take MAX_ITEMS
               else d :: s.items)
        emptyMsgs := s.emptyMsgs - 1
        animationDuration :=
          some (max SCROLL_SPEED
            ((if MAX_ITEMS < (d :: s.items).length then (d :: s.items).take MAX_ITEMS
              else d :: s.items).length * 2)) } := by
  unfold addTickerItem
  exact renderTicker_nonempty_eq _ _ (newItems_ne_nil d s.items) ht

theorem clearTicker_eq (s : TickerState) (ht : s.trackPresent = true) :
    clearTicker s = { s with items := [], track := [], emptyMsgs := s.emptyMsgs + 1 } := by
  unfold clearTicker
  exact renderTicker_empty_eq _ ht

theorem renderedRun_items (l : List ItemData) :
    (renderedRun l).filterMap trackItemNode = l.map createTickerItem := by
  induction l with
  | nil => rfl
  | cons d ds ih => simp [renderedRun, trackItemNode, List.flatMap_cons] at ih ⊢; exact ih

theorem addTickerItem_len_le (d : ItemData) (s : TickerState) :
    (addTickerItem d s).items.length ≤ MAX_ITEMS := by
  unfold addTickerItem
  rw [renderTicker_items]
  dsimp only
  split
  · simp [List.length_take]
  · next h => omega

theorem appendMsg_fields (m : ChatMsg) (s : ChatState) :
    (appendMsg m s).messages = s.messages ++ [m] ∧
    (appendMsg m s).children = s.children ++ [m] := ⟨rfl, rfl⟩

theorem clampScroll_fields (s : ChatState) :
    (clampScroll s).messages = s.messages ∧ (clampScroll s).children = s.children ∧
    (clampScroll s).autoScroll = s.autoScroll ∧
    (clampScroll s).containerPresent = s.containerPresent := ⟨rfl, rfl, rfl, rfl⟩

theorem scrollToBottom_fields (s : ChatState) :
    (scrollToBottom s).messages = s.messages ∧ (scrollToBottom s).children = s.children := by
  unfold scrollToBottom
  split <;> exact ⟨rfl, rfl⟩

/-- Combined append-then-evict step of `addChatLine`, for states whose
container children mirror `chatMessages` (true of every reachable state:
both are appended to and evicted from together). -/
theorem evict_append (m : ChatMsg) (s : ChatState) (hw : s.children = s.messages) :
    ∃ pre : List ChatMsg,
      evictOld (appendMsg m s) =
        { s with messages := pre ++ [m], children := pre ++ [m] } ∧
      (pre ++ [m]).length =
        (if MAX_MESSAGES < s.messages.length + 1 then s.messages.length
         else s.messages.length + 1) := by
  unfold evictOld appendMsg
  dsimp only
  by_cases h : MAX_MESSAGES < (s.messages ++ [m]).length
  · rw [if_pos h]
    cases hm : s.messages with
    | nil =>
        exfalso
        rw [hm] at h
        simp [MAX_MESSAGES] at h
    | cons old rest =>
        refine ⟨rest, ?_, ?_⟩
        · simp only [hw, hm, List.cons_append, List.erase_cons_head]
        · have h' : MAX_MESSAGES < (old :: rest).length + 1 := by
            simpa [hm] using h
          rw [if_pos h']
          simp
  · rw [if_neg h]
    refine ⟨s.messages, ?_, ?_⟩
    · rw [hw]
    · have h' : ¬ MAX_MESSAGES < s.messages.length + 1 := by
        simpa using h
      rw [if_neg h']
      simp

/-- The node `addChatLine` builds is always the last child afterwards. -/
theorem addChatLine_getLast (d : ChatRecord) (s : ChatState)
    (hc : s.containerPresent = true) (hw : s.children = s.messages) :
    (addChatLine d s).children.getLast? = some (buildChatMsg d) := by
  unfold addChatLine
  rw [hc]
  simp only [Bool.true_eq_false, if_false]
  obtain ⟨pre, heq, -⟩ := evict_append (buildChatMsg d) s hw
  rw [heq]
  split
  · rw [(scrollToBottom_fields _).2]
    simp [clampScroll]
  · simp [clampScroll]

theorem addChatLine_len_le (d : ChatRecord) (s : ChatState)
    (hm : s.messages.length ≤ MAX_MESSAGES) (hw : s.children = s.messages) :
    (addChatLine d s).messages.length ≤ MAX_MESSAGES := by
  unfold addChatLine
  by_cases hc : s.containerPresent = false
  · rw [if_pos hc]; exact hm
  · rw [if_neg hc]
    obtain ⟨pre, heq, hlen⟩ := evict_append (buildChatMsg d) s hw
    rw [heq]
    dsimp only
    split
    · rw [(scrollToBottom_fields _).1]
      simp only [clampScroll]
      rw [hlen]
      split <;> omega
    · simp only [clampScroll]
      rw [hlen]
      split <;> omega

theorem listFilter_ne_lt (a : Nat) (l : List Nat) (h : a ∈ l) :
    (l.filter (fun c => c != a)).length < l.length :=
  List.length_filter_lt_length_iff_exists.mpr ⟨a, h, by simp⟩

theorem createAlert_active_le (ty : String) (a : Nat) (s : AlertState)
    (h : s.activeAlerts.length ≤ MAX_ALERTS) :
    (createAlert ty a s).activeAlerts.length ≤ MAX_ALERTS := by
  unfold createAlert displayAlert
  split
  · exact h
  · split
    · split
      · exact h
      · simp only [List.length_append, List.length_cons, List.length_nil]
        omega
    · exact h

theorem removeAlert_active_le (a : Nat) (s : AlertState)
    (ha : a ∈ s.activeAlerts) (h : s.activeAlerts.length ≤ MAX_ALERTS) :
    (removeAlert a s).activeAlerts.length ≤ MAX_ALERTS := by
  have hf := listFilter_ne_lt a s.activeAlerts ha
  unfold removeAlert displayAlert
  dsimp only
  split
  · dsimp only; omega
  · split
    · dsimp only; omega
    · simp only [List.length_append, List.length_cons, List.length_nil]
      omega

theorem reach_active_le (s t : AlertState) (hr : ReachAlert s t)
    (h : s.activeAlerts.length ≤ MAX_ALERTS) :
    t.activeAlerts.length ≤ MAX_ALERTS := by
  induction hr with
  | refl => exact h
  | submit u ty a _ ih => exact createAlert_active_le ty a u ih
  | retire u a _ hact htim ih =>
      exact removeAlert_active_le a { u with pendingTimers := u.pendingTimers.erase a } hact ih
  | clear u _ ih => simp [clearAlerts, MAX_ALERTS]

/-! ## Claim theorems -/

/-- Claim C3: for every state of the ticker Backing List reached by any
sequence of addTickerItem/clearTicker calls, the rendered ticker track
contains exactly two concatenated copies of the list in the same relative
order (item 1 .. item n, item 1 .. item n) after every mutation.  Both
mutations end in a full re-render, so the track equals two copies of one
rendered run of the resulting list, and a run lists exactly the items in
list order. -/
theorem ticker_render_two_copies (s : TickerState) (d : ItemData)
    (ht : s.trackPresent = true) :
    ((addTickerItem d s).track =
       renderedRun (addTickerItem d s).items ++ renderedRun (addTickerItem d s).items) ∧
    ((clearTicker s).track =
       renderedRun (clearTicker s).items ++ renderedRun (clearTicker s).items) ∧
    (∀ l : List ItemData, (renderedRun l).filterMap trackItemNode = l.map createTickerItem) := by
  refine ⟨?_, ?_, renderedRun_items⟩
  · rw [addTickerItem_eq d s ht]
  · rw [clearTicker_eq s ht]
    rfl

/-- Witness for `ticker_render_two_copies` at a concrete state. -/
theorem ticker_render_two_copies_witness :
    (addTickerItem demoItem emptyTickerState).track =
      renderedRun (addTickerItem demoItem emptyTickerState).items ++
        renderedRun (addTickerItem demoItem emptyTickerState).items :=
  (ticker_render_two_copies emptyTickerState demoItem rfl).1

/-- Claim C10 (amended): on every ticker render of a NON-EMPTY Backing
List the scroll animation duration in seconds is recomputed as
`max SCROLL_SPEED (2 * |items|)`; a render of an empty list (the
`clearTicker` path) returns before `updateScrollSpeed` and leaves the
previous duration in place. -/
theorem ticker_scroll_duration (s : TickerState) (d : ItemData)
    (ht : s.trackPresent = true) :
    ((addTickerItem d s).animationDuration =
       some (max SCROLL_SPEED ((addTickerItem d s).items.length * 2))) ∧
    ((clearTicker s).animationDuration = s.animationDuration) := by
  constructor
  · rw [addTickerItem_eq d s ht]
  · rw [clearTicker_eq s ht]

/-- Witness for `ticker_scroll_duration` at a concrete state. -/
theorem ticker_scroll_duration_witness :
    (addTickerItem demoItem emptyTickerState).animationDuration =
      some (max SCROLL_SPEED ((addTickerItem demoItem emptyTickerState).items.length * 2)) :=
  (ticker_scroll_duration emptyTickerState demoItem rfl).1

/-- Counterexample to claim C10 as stated: after sixteen items the
duration is 32 s; clearing the ticker is a render of the empty list, after
which the duration is still 32 s, not `max SCROLL_SPEED (2 * 0) = 30` s,
so the duration is not recomputed on every render. -/
theorem ticker_scroll_duration_counterexample :
    (clearTicker (addFollows 16 emptyTickerState)).animationDuration ≠
      some (max SCROLL_SPEED
        ((clearTicker (addFollows 16 emptyTickerState)).items.length * 2)) := by
  decide

/-- Claim C4 (amended): `clearChat` and `clearAlerts` are idempotent;
`clearTicker` leaves the Backing List, the track, and the animation
duration in the same state when called twice, but each call appends one
more `.ticker-empty` placeholder node to the track's parent, so the
display surface differs between one call and two. -/
theorem clears_idempotent (cs : ChatState) (as : AlertState) (ts : TickerState)
    (ht : ts.trackPresent = true) :
    clearChat (clearChat cs) = clearChat cs ∧
    clearAlerts (clearAlerts as) = clearAlerts as ∧
    (clearTicker (clearTicker ts)).items = (clearTicker ts).items ∧
    (clearTicker (clearTicker ts)).track = (clearTicker ts).track ∧
    (clearTicker (clearTicker ts)).animationDuration = (clearTicker ts).animationDuration ∧
    (clearTicker (clearTicker ts)).emptyMsgs = (clearTicker ts).emptyMsgs + 1 := by
  have h1 := clearTicker_eq ts ht
  have h2 := clearTicker_eq
    { ts with items := ([] : List ItemData), track := ([] : List TrackNode),
              emptyMsgs := ts.emptyMsgs + 1 } ht
  refine ⟨?_, ?_, ?_, ?_, ?_, ?_⟩
  · unfold clearChat clampScroll maxScroll scrollHeight
    by_cases hc : cs.containerPresent <;> simp [hc]
  · simp [clearAlerts]
  · rw [h1, h2]
  · rw [h1, h2]
  · rw [h1, h2]
  · rw [h1, h2]

/-- Witness for `clears_idempotent` at concrete states. -/
theorem clears_idempotent_witness :
    clearChat (clearChat initChatState) = clearChat initChatState :=
  (clears_idempotent initChatState initAlertState emptyTickerState rfl).1

/-- Counterexample to claim C4 as stated: two `clearTicker` calls do not
leave the widget in exactly the state one call does — the second call adds
a second "No recent events" placeholder to the display surface. -/
theorem clears_idempotent_counterexample :
    clearTicker (clearTicker emptyTickerState) ≠ clearTicker emptyTickerState := by
  decide

/-- Claim C5 (amended): when the display surface is missing, chat's
`addChatLine` logs an error and is a true no-op (state unchanged, nothing
thrown); the ticker's `addTickerItem` skips rendering (track, placeholder
count, and duration unchanged) but still updates the Backing List; the
alert engine's `displayAlert` drops the alert without any state change,
while `initAlerts` does not become a no-op: it creates a fallback
container whenever the lookup fails. -/
theorem missing_surface (cs : ChatState) (ts : TickerState) (as : AlertState)
    (d : ChatRecord) (i : ItemData) (a : Nat) (found : Bool)
    (hc : cs.containerPresent = false) (ht : ts.trackPresent = false)
    (ha : as.containerPresent = false) :
    addChatLine d cs = cs ∧
    ((addTickerItem i ts).items =
       (if MAX_ITEMS < (i :: ts.items).length then (i :: ts.items).take MAX_ITEMS
        else i :: ts.items)) ∧
    (addTickerItem i ts).track = ts.track ∧
    (addTickerItem i ts).emptyMsgs = ts.emptyMsgs ∧
    (addTickerItem i ts).animationDuration = ts.animationDuration ∧
    displayAlert a as = as ∧
    (initAlerts found as).containerPresent = true := by
  have hadd : addTickerItem i ts =
      { ts with items :=
          (if MAX_ITEMS < (i :: ts.items).length then (i :: ts.items).take MAX_ITEMS
           else i :: ts.items) } := by
    unfold addTickerItem
    exact renderTicker_noTrack _ _ ht
  refine ⟨?_, ?_, ?_, ?_, ?_, ?_, ?_⟩
  · simp [addChatLine, hc]
  · rw [hadd]
  · rw [hadd]
  · rw [hadd]
  · rw [hadd]
  · simp [displayAlert, ha]
  · unfold initAlerts
    split <;> rfl

/-- Witness for `missing_surface` at concrete states. -/
theorem missing_surface_witness :
    addChatLine demoChatRecord noChatState = noChatState :=
  (missing_surface noChatState noTrackState noContainerAlertState demoChatRecord
    demoItem 1 false rfl rfl rfl).1

/-- Counterexample to claim C5 as stated: with the ticker track missing,
`addTickerItem` is not a no-op — the Backing List still changes. -/
theorem missing_surface_counterexample :
    (addTickerItem demoItem noTrackState).items ≠ noTrackState.items := by
  decide

/-- Claim C6: an event whose type is outside the known registry is
rejected by `createAlert` with no state or display change, while the
ticker accepts it: the item enters the Backing List (newest-first) and its
node carries the default fallback icon instead of a registry icon. -/
theorem unknown_type_divergence (s : AlertState) (t : TickerState) (d : ItemData) (a : Nat)
    (h1 : (alertTypes.contains d.ty) = false) (h2 : lookupIcon d.ty = none) :
    createAlert d.ty a s = s ∧
    (createTickerItem d).icon = "●" ∧
    (addTickerItem d t).items.head? = some d := by
  refine ⟨?_, ?_, ?_⟩
  · unfold createAlert
    rw [h1, if_pos rfl]
  · simp [createTickerItem, h2]
  · unfold addTickerItem
    rw [renderTicker_items]
    dsimp only
    split
    · rw [show MAX_ITEMS = 19 + 1 from rfl, List.take_succ_cons]
      rfl
    · rfl

/-- Witness for `unknown_type_divergence` at a concrete unknown type. -/
theorem unknown_type_divergence_witness :
    createAlert mysteryItem.ty 1 initAlertState = initAlertState :=
  (unknown_type_divergence initAlertState emptyTickerState mysteryItem 1
    (by decide) (by decide)).1

/-- Claim C7: after every `addChatLine` call with auto-scroll enabled the
chat container's scroll offset equals its maximum and the newest message
is the last child; with auto-scroll disabled the same call leaves the
scroll offset unchanged.  Stated for states whose container mirrors the
message list and whose offset is in range — true of every state the DOM
can be in. -/
theorem chat_autoscroll (s : ChatState) (d : ChatRecord)
    (hc : s.containerPresent = true) (hw : s.children = s.messages)
    (hs : s.scrollTop ≤ maxScroll s) :
    (s.autoScroll = true →
       (addChatLine d s).scrollTop = maxScroll (addChatLine d s) ∧
       (addChatLine d s).children.getLast? = some (buildChatMsg d)) ∧
    (s.autoScroll = false → (addChatLine d s).scrollTop = s.scrollTop) := by
  obtain ⟨pre, heq, hlen⟩ := evict_append (buildChatMsg d) s hw
  have hpre : s.messages.length ≤ (pre ++ [buildChatMsg d]).length := by
    rw [hlen]; split <;> omega
  have hst : s.scrollTop ≤ (pre ++ [buildChatMsg d]).length - s.clientHeight := by
    have hs' := hs
    unfold maxScroll scrollHeight at hs'
    rw [hw] at hs'
    omega
  unfold addChatLine
  rw [hc]
  simp only [Bool.true_eq_false, if_false]
  rw [heq]
  constructor
  · intro hauto
    dsimp only [clampScroll]
    rw [hauto]
    simp only [if_true]
    unfold scrollToBottom
    rw [hc]
    simp only [if_true]
    constructor
    · dsimp only [maxScroll, scrollHeight]
      exact Nat.min_eq_right (Nat.sub_le _ _)
    · simp
  · intro hauto
    dsimp only [clampScroll]
    rw [hauto]
    simp only [Bool.false_eq_true, if_false]
    dsimp only [maxScroll, scrollHeight]
    exact Nat.min_eq_left hst

/-- Witness for `chat_autoscroll` at a concrete state. -/
theorem chat_autoscroll_witness :
    (addChatLine demoChatRecord initChatState).scrollTop =
      maxScroll (addChatLine demoChatRecord initChatState) ∧
    (addChatLine demoChatRecord initChatState).children.getLast? =
      some (buildChatMsg demoChatRecord) :=
  (chat_autoscroll initChatState demoChatRecord rfl rfl (by decide)).1 rfl

/-- Claim C9 (amended): for every chat record with the `cheer` flag set
AND a positive bits amount, `addChatLine` prefixes the bits amount into
the rendered body text: the content reads "Cheered N bits: " followed by
the escaped message, and that node is the message appended to the display
surface.  (The source guards the prefix by `cheer && bits > 0`, so a cheer
record with zero bits gets no prefix.) -/
theorem cheer_bits_content (d : ChatRecord) (h1 : d.cheer = true) (h2 : 0 < d.bits) :
    (buildChatMsg d).content =
      "Cheered " ++ formatNumber d.bits ++ " bits: " ++ escapeHtml d.message ∧
    (∀ s : ChatState, s.containerPresent = true → s.children = s.messages →
       (addChatLine d s).children.getLast? = some (buildChatMsg d)) := by
  constructor
  · simp [buildChatMsg, h1, h2]
  · intro s hc hw
    exact addChatLine_getLast d s hc hw

/-- Witness for `cheer_bits_content` at a concrete cheer record. -/
theorem cheer_bits_content_witness :
    (buildChatMsg { cheer := true, bits := 500, message := "gg" }).content =
      "Cheered " ++ formatNumber 500 ++ " bits: " ++ escapeHtml ("gg") :=
  (cheer_bits_content { cheer := true, bits := 500, message := "gg" } rfl (by decide)).1

/-- Counterexample to claim C9 as stated: a record with the `cheer` flag
set but the default zero bits amount is rendered without the prefix. -/
theorem cheer_bits_content_counterexample :
    (buildChatMsg { cheer := true, bits := 0, message := "hi" }).content ≠
      "Cheered " ++ formatNumber 0 ++ " bits: " ++ escapeHtml ("hi") := by
  decide

/-- Claim C1: while the Active Set has fewer than `MAX_ALERTS` members a
valid submission is displayed (added to the Active Set and the container)
immediately with the queue untouched; at capacity it is appended to the
tail of the Pending Queue; on each retirement exactly the head of the
Pending Queue is dequeued and displayed next.  The closing conjuncts run
the claim's own scenario: submitting A,B,C,D leaves D queued, and retiring
A promotes D (and only D). -/
theorem alerts_admission_fifo (s : AlertState) (ty : String) (a q : Nat) (qs : List Nat)
    (hc : s.containerPresent = true) (hty : (alertTypes.contains ty) = true) :
    (s.activeAlerts.length < MAX_ALERTS →
       (createAlert ty a s).activeAlerts = s.activeAlerts ++ [a] ∧
       (createAlert ty a s).containerChildren = s.containerChildren ++ [a] ∧
       (createAlert ty a s).alertQueue = s.alertQueue) ∧
    (MAX_ALERTS ≤ s.activeAlerts.length →
       (createAlert ty a s).alertQueue = s.alertQueue ++ [a] ∧
       (createAlert ty a s).activeAlerts = s.activeAlerts) ∧
    (s.alertQueue = q :: qs →
       (removeAlert a s).alertQueue = qs ∧
       (removeAlert a s).activeAlerts =
         s.activeAlerts.filter (fun c => c != a) ++ [q] ∧
       (removeAlert a s).containerChildren =
         s.containerChildren.filter (fun c => c != a) ++ [q]) ∧
    ((runAlerts [AlertOp.submit ("follow") 1, AlertOp.submit ("subscribe") 2,
        AlertOp.submit ("donation") 3, AlertOp.submit ("cheer") 4]
        initAlertState).activeAlerts = [1, 2, 3] ∧
     (runAlerts [AlertOp.submit ("follow") 1, AlertOp.submit ("subscribe") 2,
        AlertOp.submit ("donation") 3, AlertOp.submit ("cheer") 4]
        initAlertState).alertQueue = [4]) ∧
    ((runAlerts [AlertOp.submit ("follow") 1, AlertOp.submit ("subscribe") 2,
        AlertOp.submit ("donation") 3, AlertOp.submit ("cheer") 4, AlertOp.retire 1]
        initAlertState).activeAlerts = [2, 3, 4] ∧
     (runAlerts [AlertOp.submit ("follow") 1, AlertOp.submit ("subscribe") 2,
        AlertOp.submit ("donation") 3, AlertOp.submit ("cheer") 4, AlertOp.retire 1]
        initAlertState).alertQueue = []) := by
  refine ⟨?_, ?_, ?_, by decide, by decide⟩
  · intro hlt
    unfold createAlert displayAlert
    rw [hty]
    simp only [Bool.true_eq_false, if_false]
    rw [if_pos hlt, hc]
    simp only [Bool.true_eq_false, if_false]
    exact ⟨by trivial, by trivial, by trivial⟩
  · intro hge
    unfold createAlert
    rw [hty]
    simp only [Bool.true_eq_false, if_false]
    rw [if_neg (by omega)]
    exact ⟨by trivial, by trivial⟩
  · intro hq
    unfold removeAlert displayAlert
    dsimp only
    rw [hq]
    dsimp only
    rw [hc]
    simp only [Bool.true_eq_false, if_false]
    exact ⟨by trivial, by trivial, by trivial⟩

/-- Witness for `alerts_admission_fifo` at the empty initial state. -/
theorem alerts_admission_fifo_witness :
    (createAlert ("follow") 5 initAlertState).activeAlerts =
      initAlertState.activeAlerts ++ [5] ∧
    (createAlert ("follow") 5 initAlertState).containerChildren =
      initAlertState.containerChildren ++ [5] ∧
    (createAlert ("follow") 5 initAlertState).alertQueue = initAlertState.alertQueue :=
  (alerts_admission_fifo initAlertState ("follow") 5 0 [] rfl rfl).1 (by decide)

/-- Claim C2 (amended): the chat Backing List never exceeds
`MAX_MESSAGES` and the ticker Backing List never exceeds `MAX_ITEMS`
after any addition or clear; the alerts Active Set never exceeds
`MAX_ALERTS` along any run of submissions, clears, and retirements in
which each retirement continuation fires while its alert is still active.
(When a retirement fires for an alert that `clearAlerts` already removed,
the promotion it performs can push the Active Set above `MAX_ALERTS`; see
the counterexample.) -/
theorem bounded_sizes (s0 s1 : AlertState) (cs : ChatState) (d : ChatRecord)
    (ts : TickerState) (i : ItemData)
    (hr : ReachAlert s0 s1) (h0 : s0.activeAlerts.length ≤ MAX_ALERTS)
    (hm : cs.messages.length ≤ MAX_MESSAGES) (hw : cs.children = cs.messages) :
    s1.activeAlerts.length ≤ MAX_ALERTS ∧
    (addChatLine d cs).messages.length ≤ MAX_MESSAGES ∧
    (clearChat cs).messages.length ≤ MAX_MESSAGES ∧
    (addTickerItem i ts).items.length ≤ MAX_ITEMS ∧
    (clearTicker ts).items.length ≤ MAX_ITEMS := by
  refine ⟨reach_active_le s0 s1 hr h0, addChatLine_len_le d cs hm hw, ?_,
    addTickerItem_len_le i ts, ?_⟩
  · unfold clearChat
    split <;> simp [MAX_MESSAGES]
  · unfold clearTicker
    rw [renderTicker_items]
    simp [MAX_ITEMS]

/-- Witness for `bounded_sizes` at concrete states. -/
theorem bounded_sizes_witness :
    initAlertState.activeAlerts.length ≤ MAX_ALERTS ∧
    (addChatLine demoChatRecord initChatState).messages.length ≤ MAX_MESSAGES ∧
    (clearChat initChatState).messages.length ≤ MAX_MESSAGES ∧
    (addTickerItem demoItem emptyTickerState).items.length ≤ MAX_ITEMS ∧
    (clearTicker emptyTickerState).items.length ≤ MAX_ITEMS :=
  bounded_sizes initAlertState initAlertState initChatState demoChatRecord
    emptyTickerState demoItem (ReachAlert.refl initAlertState) (by decide)
    (by decide) rfl

/-- Counterexample to claim C2 as stated: submit three alerts, clear them
(which does not cancel their retirement timers), refill the Active Set and
queue a fourth; when the stale timer of the first cleared alert fires, its
continuation promotes the queued alert and the Active Set reaches four
members, exceeding `MAX_ALERTS`. -/
theorem bounded_sizes_counterexample :
    MAX_ALERTS <
      (runAlerts
        [AlertOp.submit ("follow") 1, AlertOp.submit ("follow") 2,
         AlertOp.submit ("follow") 3, AlertOp.clear,
         AlertOp.submit ("follow") 4, AlertOp.submit ("follow") 5,
         AlertOp.submit ("follow") 6, AlertOp.submit ("follow") 7,
         AlertOp.retire 1] initAlertState).activeAlerts.length := by
  decide

/-- Claim C8: when the retirement continuation runs for an alert that is
no longer in the Active Set and whose node is detached (as after
`clearAlerts`), the current Active Set members and their nodes are left
unchanged, yet a non-empty Pending Queue still has its head dequeued and
displayed, adding a new member; and `clearAlerts` cancels no pending
retirement timer. -/
theorem stale_retirement_promotes (s : AlertState) (a q : Nat) (qs : List Nat)
    (hc : s.containerPresent = true)
    (hna : a ∉ s.activeAlerts)
    (hnc : a ∉ s.containerChildren)
    (hq : s.alertQueue = q :: qs) :
    (removeAlert a s).activeAlerts = s.activeAlerts ++ [q] ∧
    (removeAlert a s).containerChildren = s.containerChildren ++ [q] ∧
    (removeAlert a s).alertQueue = qs ∧
    (∀ u : AlertState, (clearAlerts u).pendingTimers = u.pendingTimers) := by
  have hfa : s.activeAlerts.filter (fun c => c != a) = s.activeAlerts :=
    List.filter_eq_self.mpr (fun x hx => by
      simp only [bne_iff_ne, ne_eq, decide_eq_true_eq]
      exact fun hxa => hna (hxa ▸ hx))
  have hfc : s.containerChildren.filter (fun c => c != a) = s.containerChildren :=
    List.filter_eq_self.mpr (fun x hx => by
      simp only [bne_iff_ne, ne_eq, decide_eq_true_eq]
      exact fun hxa => hnc (hxa ▸ hx))
  unfold removeAlert displayAlert
  dsimp only
  rw [hq]
  dsimp only
  rw [hc]
  simp only [Bool.true_eq_false, if_false]
  rw [hfa, hfc]
  exact ⟨by trivial, by trivial, by trivial, fun u => rfl⟩

/-- Witness for `stale_retirement_promotes` at a concrete state with a
stale timer for alert 1, three active alerts, and one queued alert. -/
theorem stale_retirement_promotes_witness :
    (removeAlert 1 staleTimerState).activeAlerts =
      staleTimerState.activeAlerts ++ [9] :=
  (stale_retirement_promotes staleTimerState 1 9 []
    rfl (by decide) (by decide) rfl).1

end Overlay

